import Mathlib

set_option maxRecDepth 4000

/-!
Verification development for the rtsp-client repository.

The repository has two source files:
  * src/main.rs — an RTSP session: a `Session` record with a server address,
    a TCP stream and a `cseq : u32` counter starting at 1, and
    `send_basic_rtsp_request`, which formats a request string, writes it,
    reads one response into a fixed 1024-byte buffer and increments `cseq`.
  * examples/simple/src/main.rs — a capture loop: receives RTP datagrams into
    a fixed 2048-byte buffer `buf_rtp`, inspects `buf_rtp[12]`, and
    accumulates NAL payload bytes in a `payload` vector, flushing (break to
    the decoder) when a second SPS packet (byte 103) is seen.

Bytes are modelled as `Nat` (all source values fit in `u8`); byte buffers as
`List Nat`.  The Rust slice expression `&buf_rtp[a..l]` panics when `a > l`
or `l > 2048` (the array's static length); that panic is modelled explicitly
(`sliceGet` returning `none`, step result `crashed`).  `cseq : u32` overflow
on `cseq += 1` is a panic under the default (debug, overflow-checked) build;
that is modelled as the `overflowed` send result.
-/

/-- The payload-unit classification of the capture loop: the loop's branch
conditions on `buf_rtp[12]` are `== 103` (SPS, start of group), `== 124`
(FU-A fragment), and everything else (complete unit, the final `else`). -/
inductive UnitType where
  | StartOfGroup
  | Fragment
  | Complete
  deriving DecidableEq, Repr

/-- Classification of a header byte, mirroring the capture loop's branch
conditions on `buf_rtp[12]` in order: 103, then 124, then the rest. -/
def classify (b : Nat) : UnitType :=
  if b = 103 then UnitType.StartOfGroup
  else if b = 124 then UnitType.Fragment
  else UnitType.Complete

/-- Classification of a packet: the loop reads index 12 of the receive
buffer, so a packet is classified by its byte 12. -/
def classifyPacket (p : List Nat) : UnitType :=
  classify (p.getD 12 0)

/-- State carried across iterations of the capture loop:
`bufRtp` is the persistent 2048-byte receive buffer `buf_rtp` (bytes beyond
the last datagram's length keep their previous, stale contents), `payload`
is the accumulation vector, `sequenceStarted` the boolean flag. -/
structure LoopState where
  bufRtp : List Nat
  payload : List Nat
  sequenceStarted : Bool
  deriving DecidableEq, Repr

/-- Number of bytes `recv` copies into the 2048-byte buffer for an incoming
datagram `d` (the returned `len`). -/
def recvLen (d : List Nat) : Nat := min d.length 2048

/-- The receive buffer after `recv`: the first `recvLen d` positions hold the
datagram, the rest keep the previous buffer contents. -/
def recvBuf (bufRtp d : List Nat) : List Nat :=
  d.take (recvLen d) ++ bufRtp.drop (recvLen d)

/-- The Rust slice `&buf_rtp[a..b]` on the `[u8; 2048]` array `buf_rtp`:
defined when `a ≤ b ≤ 2048` (the array's static length), otherwise a
panic (`none`). -/
def sliceGet (buf : List Nat) (a b : Nat) : Option (List Nat) :=
  if a ≤ b ∧ b ≤ 2048 then some ((buf.take b).drop a) else none

/-- Outcome of one iteration of the capture loop body. -/
inductive StepResult where
  | next (s : LoopState)
  | flush (buffer : List Nat)
  | crashed
  deriving DecidableEq, Repr

/-- One iteration of the capture loop body (examples/simple/src/main.rs,
lines 72–137): receive a datagram, read `buf_rtp[12]`; on 103 either flush
(break, handing `payload` to the decoder) if `sequence_started`, or set
`sequence_started` and fall through to the non-fragment append of
`buf_rtp[12..len]`; on 124 append `buf_rtp[14..len]`; otherwise append
`buf_rtp[12..len]`.  (The read of `buf_rtp[13]` and the no-op check of the
FU header against 133/69/5 have no effect on the state.) -/
def step (s : LoopState) (d : List Nat) : StepResult :=
  let len := recvLen d
  let buf := recvBuf s.bufRtp d
  let headerNal := buf.getD 12 0
  if headerNal = 103 then
    if s.sequenceStarted then
      StepResult.flush s.payload
    else
      match sliceGet buf 12 len with
      | some sl => StepResult.next ⟨buf, s.payload ++ sl, true⟩
      | none => StepResult.crashed
  else if headerNal = 124 then
    match sliceGet buf 14 len with
    | some sl => StepResult.next ⟨buf, s.payload ++ sl, s.sequenceStarted⟩
    | none => StepResult.crashed
  else
    match sliceGet buf 12 len with
    | some sl => StepResult.next ⟨buf, s.payload ++ sl, s.sequenceStarted⟩
    | none => StepResult.crashed

/-- The payload slice a non-flushing, non-crashing iteration appends:
`buf_rtp[14..len]` in the fragment branch, `buf_rtp[12..len]` otherwise. -/
def stepSlice (s : LoopState) (d : List Nat) : List Nat :=
  let len := recvLen d
  let buf := recvBuf s.bufRtp d
  if buf.getD 12 0 = 124 then (buf.take len).drop 14 else (buf.take len).drop 12

/-- Outcome of running the capture loop on a finite list of datagrams. -/
inductive LoopResult where
  | flushed (buffer : List Nat)
  | exhausted (s : LoopState)
  | panicked
  deriving DecidableEq, Repr

/-- Run the capture loop over a list of incoming datagrams: the loop breaks
with the accumulated payload on the flush, and `exhausted` marks the point
where the source would block waiting for the next datagram. -/
def runLoop : LoopState → List (List Nat) → LoopResult
  | s, [] => LoopResult.exhausted s
  | s, d :: ds =>
    match step s d with
    | StepResult.next s' => runLoop s' ds
    | StepResult.flush b => LoopResult.flushed b
    | StepResult.crashed => LoopResult.panicked

/-- The payload slices appended by the successive non-flushing iterations of
the loop (stops at a flush, a crash, or the end of the datagram list). -/
def loopSlices : LoopState → List (List Nat) → List (List Nat)
  | _, [] => []
  | s, d :: ds =>
    match step s d with
    | StepResult.next s' => stepSlice s d :: loopSlices s' ds
    | _ => []

/-- The state at loop entry: `buf_rtp = [0u8; 2048]`, `payload` empty,
`sequence_started = false`. -/
def initState : LoopState :=
  ⟨List.replicate 2048 0, [], false⟩

-- Concrete packets for the boundary scenario of the spec (a 12-byte RTP
-- header followed by the NAL bytes).
def hdr12 : List Nat := [128, 96, 0, 1, 0, 0, 0, 2, 0, 0, 0, 3]

def sog1 : List Nat := hdr12 ++ [103, 51, 52]

def frag1 : List Nat := hdr12 ++ [124, 133, 61, 62]

def frag2 : List Nat := hdr12 ++ [124, 5, 63]

def frag3 : List Nat := hdr12 ++ [124, 69, 64, 65]

def comp1 : List Nat := hdr12 ++ [1, 71, 72]

def comp2 : List Nat := hdr12 ++ [2, 73]

def sog2 : List Nat := hdr12 ++ [103, 99]

def streamC3 : List (List Nat) :=
  [sog1, frag1, frag2, frag3, comp1, comp2, sog2]

def flushC3actual : List Nat :=
  [103, 51, 52, 61, 62, 63, 64, 65, 1, 71, 72, 2, 73]

def flushC3claimed : List Nat :=
  [61, 62, 63, 64, 65, 1, 71, 72, 2, 73]

/-- `u32` overflow bound: `cseq += 1` panics (debug build) when the result
would not fit in a `u32`. -/
def U32_MOD : Nat := 4294967296

/-- The RTSP session of src/main.rs: server address string and the `cseq`
counter (the `TcpStream` handle is external; its effects are passed to each
send as a `NetStep`). -/
structure Session where
  serverAddr : String
  cseq : Nat
  deriving DecidableEq, Repr

/-- `Session::new` (src/main.rs lines 12–18): stores the address and starts
the counter at `cseq: 1`. -/
def Session.new (serverAddr : String) : Session :=
  ⟨serverAddr, 1⟩

/-- The network's behaviour for one call of `send_basic_rtsp_request`:
whether `stream.write(..)` succeeds, and what `stream.read(..)` returns
(`none` for an `Err`, `some data` for `Ok` delivering the bytes `data`,
of which at most 1024 are copied into the buffer). -/
structure NetStep where
  writeOk : Bool
  readResult : Option (List Nat)
  deriving DecidableEq, Repr

/-- Result of one `send_basic_rtsp_request` call: `ok resp` carries the
bytes of the 1024-byte buffer handed to `String::from_utf8_lossy`, `ioErr`
is an `Err` propagated by a `?`, `overflowed` is the debug-build panic of
`cseq += 1` at `u32::MAX`. -/
inductive SendResult where
  | ok (resp : List Nat)
  | ioErr
  | overflowed
  deriving DecidableEq, Repr

/-- Everything observable about one `send_basic_rtsp_request` call: the
request string passed to a successful `stream.write` (`none` if the write
failed), the result, and the session afterwards. -/
structure SendOutcome where
  written : Option String
  result : SendResult
  sess : Session
  deriving DecidableEq, Repr

/-- The `format!` of src/main.rs lines 37–40. -/
def formatRequest (method serverAddr : String) (cseq : Nat) : String :=
  method ++ " " ++ serverAddr ++ " RTSP/1.0\r\nCSeq: " ++ toString cseq ++ "\r\n\r\n"

/-- `send_basic_rtsp_request` (src/main.rs lines 36–51): format the request,
`write(request)?`, `read(&mut buffer)?` into `buffer = [0; 1024]`,
`cseq += 1`, then decode the whole buffer.  The returned `ok` value is the
full 1024-byte buffer content: the first `min data.length 1024` positions
hold the bytes the read delivered, the rest keep their initial 0. -/
def sendBasicRtspRequest (sess : Session) (method : String) (net : NetStep) : SendOutcome :=
  let request := formatRequest method sess.serverAddr sess.cseq
  if net.writeOk then
    match net.readResult with
    | none => ⟨some request, SendResult.ioErr, sess⟩
    | some data =>
      if sess.cseq + 1 < U32_MOD then
        let n := min data.length 1024
        let buffer := data.take n ++ List.replicate (1024 - n) 0
        ⟨some request, SendResult.ok buffer, ⟨sess.serverAddr, sess.cseq + 1⟩⟩
      else
        ⟨some request, SendResult.overflowed, sess⟩
  else
    ⟨none, SendResult.ioErr, sess⟩

/-- Run a sequence of send calls (method and network behaviour for each);
`none` as soon as one call does not return `Ok` (the `?` in `main`
propagates the error and no further send happens). -/
def runSends : Session → List (String × NetStep) → Option Session
  | sess, [] => some sess
  | sess, (m, net) :: rest =>
    match (sendBasicRtspRequest sess m net).result with
    | SendResult.ok _ => runSends (sendBasicRtspRequest sess m net).sess rest
    | _ => none

def goodNet : NetStep := ⟨true, some [82, 84, 83, 80]⟩

def sendSteps2 : List (String × NetStep) :=
  [("OPTIONS", goodNet), ("DESCRIBE", ⟨true, some []⟩)]

def tenBytePacket : List Nat := [9, 9, 9, 9, 9, 9, 9, 9, 9, 9]

def dataW : List Nat := [72, 101]

-- ------------------------------------------------------------------
-- Helper lemmas
-- ------------------------------------------------------------------

theorem sliceGet_eq_some {buf : List Nat} {a b : Nat} {sl : List Nat}
    (h : sliceGet buf a b = some sl) : sl = (buf.take b).drop a := by
  unfold sliceGet at h
  split at h
  · injection h with h
    exact h.symm
  · cases h

theorem recvLen_eq {d : List Nat} (hd : d.length ≤ 2048) : recvLen d = d.length := by
  unfold recvLen
  omega

theorem recvBuf_getD_12 (bufRtp d : List Nat) (h : 13 ≤ d.length) :
    (recvBuf bufRtp d).getD 12 0 = d.getD 12 0 := by
  have h12 : 12 < recvLen d := by
    unfold recvLen
    omega
  have hlt : 12 < (d.take (recvLen d)).length := by
    rw [List.length_take]
    omega
  unfold recvBuf
  rw [List.getD_eq_getElem?_getD, List.getElem?_append_left hlt,
    List.getElem?_take_of_lt h12, ← List.getD_eq_getElem?_getD]

theorem recvBuf_take_len (bufRtp d : List Nat) (hd : d.length ≤ 2048) :
    (recvBuf bufRtp d).take (recvLen d) = d := by
  unfold recvBuf
  rw [recvLen_eq hd, List.take_length, List.take_left]

theorem step_next_payload {s s' : LoopState} {d : List Nat}
    (h : step s d = StepResult.next s') :
    s'.payload = s.payload ++ stepSlice s d := by
  simp only [step, stepSlice] at h ⊢
  split at h
  next h103 =>
    split at h
    · cases h
    · split at h
      next sl hsl =>
        injection h with h
        subst h
        rw [if_neg (by rw [h103]; decide), sliceGet_eq_some hsl]
      next hsl => cases h
  next h103 =>
    split at h
    next h124 =>
      split at h
      next sl hsl =>
        injection h with h
        subst h
        rw [if_pos h124, sliceGet_eq_some hsl]
      next hsl => cases h
    next h124 =>
      split at h
      next sl hsl =>
        injection h with h
        subst h
        rw [if_neg h124, sliceGet_eq_some hsl]
      next hsl => cases h

theorem step_flush_eq {s : LoopState} {d : List Nat} {b : List Nat}
    (h : step s d = StepResult.flush b) : b = s.payload := by
  simp only [step] at h
  split at h
  · split at h
    · injection h with h
      exact h.symm
    · split at h <;> cases h
  · split at h
    · split at h <;> cases h
    · split at h <;> cases h

theorem classify_eq_fragment_iff (b : Nat) : classify b = UnitType.Fragment ↔ b = 124 := by
  unfold classify
  by_cases h3 : b = 103
  · subst h3
    simp
  · by_cases h4 : b = 124
    · subst h4
      simp
    · simp [h3, h4]

theorem classify_eq_complete_iff (b : Nat) :
    classify b = UnitType.Complete ↔ b ≠ 103 ∧ b ≠ 124 := by
  unfold classify
  by_cases h3 : b = 103
  · subst h3
    simp
  · by_cases h4 : b = 124
    · subst h4
      simp
    · simp [h3, h4]

-- ------------------------------------------------------------------
-- Claim theorems
-- ------------------------------------------------------------------

/-- C1: classification of a received datagram is a total, deterministic
function of byte 12 of the packet alone: 103 classifies as StartOfGroup,
124 as Fragment, every other byte value as Complete; two packets with the
same byte 12 classify identically. -/
theorem c1_classification_total (p q : List Nat) :
    (p.getD 12 0 = 103 → classifyPacket p = UnitType.StartOfGroup)
    ∧ (p.getD 12 0 = 124 → classifyPacket p = UnitType.Fragment)
    ∧ (p.getD 12 0 ≠ 103 → p.getD 12 0 ≠ 124 → classifyPacket p = UnitType.Complete)
    ∧ (p.getD 12 0 = q.getD 12 0 → classifyPacket p = classifyPacket q) := by
  refine ⟨fun h => ?_, fun h => ?_, fun h1 h2 => ?_, fun h => ?_⟩
  · simp only [classifyPacket, h]
    decide
  · simp only [classifyPacket, h]
    decide
  · simp only [classifyPacket, classify]
    rw [if_neg h1, if_neg h2]
  · simp only [classifyPacket, h]

theorem c1_witness :
    classifyPacket sog1 = UnitType.StartOfGroup
    ∧ classifyPacket frag1 = UnitType.Fragment
    ∧ classifyPacket comp1 = UnitType.Complete :=
  ⟨(c1_classification_total sog1 sog1).1 (by decide),
   (c1_classification_total frag1 frag1).2.1 (by decide),
   (c1_classification_total comp1 comp1).2.2.1 (by decide) (by decide)⟩

/-- C2: when the capture loop flushes, the flushed accumulation buffer is
exactly the payload present at the start (empty at stream start) followed by
the concatenation, in arrival order, of the payload slices appended by the
iterations since then, with nothing dropped, duplicated or reordered. -/
theorem c2_flush_is_ordered_concat (s : LoopState) (ds : List (List Nat)) (b : List Nat)
    (h : runLoop s ds = LoopResult.flushed b) :
    b = s.payload ++ (loopSlices s ds).flatten := by
  induction ds generalizing s b with
  | nil => simp [runLoop] at h
  | cons d ds ih =>
    simp only [runLoop] at h
    cases hstep : step s d with
    | next s' =>
      simp only [hstep] at h
      have hp := step_next_payload hstep
      have hb := ih s' b h
      simp only [loopSlices, hstep, List.flatten_cons]
      rw [hb, hp, List.append_assoc]
    | flush bb =>
      simp only [hstep] at h
      simp only [loopSlices, hstep, List.flatten_nil, List.append_nil]
      injection h with h
      rw [← h]
      exact step_flush_eq hstep
    | crashed =>
      simp only [hstep] at h
      cases h

theorem c2_witness :
    flushC3actual = initState.payload ++ (loopSlices initState streamC3).flatten :=
  c2_flush_is_ordered_concat initState streamC3 flushC3actual (by decide)

/-- C3 counterexample: on the stream
[StartOfGroup, Fragment, Fragment, Fragment, Complete, Complete, StartOfGroup]
the loop does flush on the second StartOfGroup, but the flushed buffer is
not the concatenation of only the Fragment and Complete remainders: it also
begins with the bytes of the first StartOfGroup packet (the 103 branch sets
the flag and then falls through to the non-fragment append). -/
theorem c3_counterexample :
    runLoop initState streamC3 = LoopResult.flushed flushC3actual
    ∧ flushC3actual ≠ flushC3claimed := by
  constructor
  · decide
  · decide

/-- C3 amended: on that stream the flush occurs on the second StartOfGroup
and the flushed buffer is the first StartOfGroup packet's remainder from
offset 12, then the three Fragment remainders from offset 14, then the two
Complete remainders from offset 12, in arrival order. -/
theorem c3_amended_flush :
    runLoop initState streamC3 =
      LoopResult.flushed (sog1.drop 12 ++ (frag1.drop 14 ++ frag2.drop 14
        ++ frag3.drop 14 ++ comp1.drop 12 ++ comp2.drop 12)) := by
  decide

/-- C7: an iteration on a datagram of received length len classified as
Fragment appends exactly the datagram's bytes from offset 14 to len (the
12-byte transport header plus the 2-byte fragmentation sub-header
stripped); one classified as Complete appends exactly the bytes from
offset 12 to len. -/
theorem c7_strip_offsets (s : LoopState) (d : List Nat) (hd : d.length ≤ 2048) :
    (classifyPacket d = UnitType.Fragment → 14 ≤ d.length →
      step s d = StepResult.next ⟨recvBuf s.bufRtp d, s.payload ++ d.drop 14, s.sequenceStarted⟩)
    ∧ (classifyPacket d = UnitType.Complete → 13 ≤ d.length →
      step s d = StepResult.next ⟨recvBuf s.bufRtp d, s.payload ++ d.drop 12, s.sequenceStarted⟩) := by
  have hlen : recvLen d = d.length := recvLen_eq hd
  constructor
  · intro hcl h14
    simp only [classifyPacket] at hcl
    have h124 : d.getD 12 0 = 124 := (classify_eq_fragment_iff (d.getD 12 0)).mp hcl
    have hb12 : (recvBuf s.bufRtp d).getD 12 0 = 124 := by
      rw [recvBuf_getD_12 s.bufRtp d (by omega)]
      exact h124
    have hsg : sliceGet (recvBuf s.bufRtp d) 14 (recvLen d) = some (d.drop 14) := by
      unfold sliceGet
      rw [if_pos ⟨by omega, by omega⟩, recvBuf_take_len s.bufRtp d hd]
    simp only [step, hb12]
    rw [if_neg (by decide : ¬((124 : Nat) = 103)), if_pos trivial, hsg]
  · intro hcl h13
    simp only [classifyPacket] at hcl
    obtain ⟨h103, h124⟩ := (classify_eq_complete_iff (d.getD 12 0)).mp hcl
    have hb12 : (recvBuf s.bufRtp d).getD 12 0 = d.getD 12 0 := recvBuf_getD_12 s.bufRtp d h13
    have hsg : sliceGet (recvBuf s.bufRtp d) 12 (recvLen d) = some (d.drop 12) := by
      unfold sliceGet
      rw [if_pos ⟨by omega, by omega⟩, recvBuf_take_len s.bufRtp d hd]
    simp only [step, hb12]
    rw [if_neg h103, if_neg h124, hsg]

theorem c7_witness :
    step initState frag1 =
      StepResult.next ⟨recvBuf initState.bufRtp frag1,
        initState.payload ++ frag1.drop 14, initState.sequenceStarted⟩
    ∧ step initState comp1 =
      StepResult.next ⟨recvBuf initState.bufRtp comp1,
        initState.payload ++ comp1.drop 12, initState.sequenceStarted⟩ :=
  ⟨(c7_strip_offsets initState frag1 (by decide)).1 (by decide) (by decide),
   (c7_strip_offsets initState comp1 (by decide)).2 (by decide) (by decide)⟩

/-- C8 counterexample: a 10-byte packet does not fail with a
MalformedPacketError (no such error exists in the code).  After a first
StartOfGroup packet, a 10-byte datagram leaves the stale byte 103 at buffer
index 12, so processing it succeeds and even triggers the flush; from a
fresh buffer the stale byte is 0 and processing dies with a slice-bounds
panic on `buf_rtp[12..10]`, not a recovered error. -/
theorem c8_counterexample :
    runLoop initState [sog1, tenBytePacket] = LoopResult.flushed (sog1.drop 12)
    ∧ runLoop initState [tenBytePacket] = LoopResult.panicked := by
  constructor
  · decide
  · decide

/-- C8 amended: on a fresh receive buffer, processing any 10-byte packet
reads the stale byte 0 at buffer index 12 (an access beyond the received
bytes, though inside the 2048-byte array) and then panics on the slice
`buf_rtp[12..10]`; no MalformedPacketError is ever produced, and with stale
byte 103 a 10-byte packet can even be processed successfully (see the
counterexample). -/
theorem c8_amended_behavior (d : List Nat) (h : d.length = 10) :
    step initState d = StepResult.crashed := by
  have hlen : recvLen d = 10 := by
    unfold recvLen
    omega
  have hl : (d.take (recvLen d)).length = 10 := by
    rw [List.length_take]
    omega
  have hb : (recvBuf (List.replicate 2048 0) d).getD 12 0 = 0 := by
    unfold recvBuf
    rw [List.getD_eq_getElem?_getD, List.getElem?_append_right (by omega), hl, hlen,
      List.drop_replicate]
    norm_num [List.getElem?_replicate]
  simp only [step, initState, hb, hlen]
  norm_num [sliceGet]

theorem c8_witness : step initState tenBytePacket = StepResult.crashed :=
  c8_amended_behavior tenBytePacket (by decide)

theorem send_ok_cseq (sess : Session) (m : String) (net : NetStep) (r : List Nat)
    (h : (sendBasicRtspRequest sess m net).result = SendResult.ok r) :
    (sendBasicRtspRequest sess m net).sess.cseq = sess.cseq + 1 := by
  by_cases hw : net.writeOk
  · cases hr : net.readResult with
    | none => simp [sendBasicRtspRequest, hw, hr] at h
    | some data =>
      by_cases hov : sess.cseq + 1 < U32_MOD
      · simp [sendBasicRtspRequest, hw, hr, hov]
      · simp [sendBasicRtspRequest, hw, hr, hov] at h
  · simp [sendBasicRtspRequest, hw] at h

theorem runSends_cseq (steps : List (String × NetStep)) :
    ∀ (sess s' : Session), runSends sess steps = some s' →
      s'.cseq = sess.cseq + steps.length := by
  induction steps with
  | nil =>
    intro sess s' h
    simp only [runSends, Option.some.injEq] at h
    rw [← h]
    simp
  | cons p rest ih =>
    obtain ⟨m, net⟩ := p
    intro sess s' h
    simp only [runSends] at h
    cases hr : (sendBasicRtspRequest sess m net).result with
    | ok r =>
      simp only [hr] at h
      have h1 := ih (sendBasicRtspRequest sess m net).sess s' h
      rw [h1, send_ok_cseq sess m net r hr]
      simp only [List.length_cons]
      omega
    | ioErr => simp only [hr] at h; cases h
    | overflowed => simp only [hr] at h; cases h

/-- C4: a session is created with sequence counter 1, and after N send
operations that all complete successfully the counter equals 1 + N (each
successful send adds exactly 1). -/
theorem c4_counter_after_n_sends (addr : String) (steps : List (String × NetStep))
    (s' : Session) (h : runSends (Session.new addr) steps = some s') :
    s'.cseq = 1 + steps.length := by
  have h1 := runSends_cseq steps (Session.new addr) s' h
  simpa [Session.new] using h1

theorem c4_witness : (⟨"192.168.86.138:554", 3⟩ : Session).cseq = 1 + sendSteps2.length :=
  c4_counter_after_n_sends "192.168.86.138:554" sendSteps2 ⟨"192.168.86.138:554", 3⟩
    (by decide)

/-- C5 counterexample: a send whose write succeeds but whose response read
fails does NOT increment the counter: the increment `cseq += 1` sits after
`stream.read(..)?`, so the read error propagates first and the counter
stays at 1 instead of becoming 2. -/
theorem c5_counterexample :
    (sendBasicRtspRequest (Session.new "192.168.86.138:554") "OPTIONS" ⟨true, none⟩).written.isSome
      = true
    ∧ (sendBasicRtspRequest (Session.new "192.168.86.138:554") "OPTIONS" ⟨true, none⟩).sess.cseq
      ≠ (Session.new "192.168.86.138:554").cseq + 1 := by
  constructor
  · rfl
  · decide

/-- C5 amended: the counter is incremented by exactly 1 only when both the
write and the subsequent response read succeed (and the counter is below
u32::MAX); when the write succeeds but the read fails, the increment does
not happen — it is placed after the read returns, not immediately after the
write. -/
theorem c5_amended_increment (sess : Session) (m : String) (data : List Nat)
    (hov : sess.cseq + 1 < U32_MOD) :
    (sendBasicRtspRequest sess m ⟨true, some data⟩).sess.cseq = sess.cseq + 1
    ∧ (sendBasicRtspRequest sess m ⟨true, none⟩).sess.cseq = sess.cseq := by
  constructor
  · simp [sendBasicRtspRequest, hov]
  · rfl

theorem c5_witness :
    (sendBasicRtspRequest (Session.new "a") "OPTIONS" ⟨true, some dataW⟩).sess.cseq
      = (Session.new "a").cseq + 1
    ∧ (sendBasicRtspRequest (Session.new "a") "OPTIONS" ⟨true, none⟩).sess.cseq
      = (Session.new "a").cseq :=
  c5_amended_increment (Session.new "a") "OPTIONS" dataW (by decide)

/-- C6 counterexample: a response read that yields zero bytes does NOT fail
the send call: `read` returning `Ok(0)` passes the `?`, and the call
returns success with the untouched all-zero 1024-byte buffer. -/
theorem c6_counterexample :
    (sendBasicRtspRequest (Session.new "192.168.86.138:554") "PLAY" ⟨true, some []⟩).result
      = SendResult.ok (List.replicate 1024 0) := rfl

/-- C6 amended: an error from the underlying connection on the write or on
the response read fails the whole send call (the error propagates, no
retry — the call performs at most one write and one read); a read that
yields zero bytes succeeds, producing the all-zero 1024-byte buffer. -/
theorem c6_amended_failure (sess : Session) (m : String) (net : NetStep)
    (hov : sess.cseq + 1 < U32_MOD) :
    (sendBasicRtspRequest sess m ⟨true, none⟩).result = SendResult.ioErr
    ∧ (sendBasicRtspRequest sess m ⟨false, net.readResult⟩).result = SendResult.ioErr
    ∧ (sendBasicRtspRequest sess m ⟨true, some []⟩).result
      = SendResult.ok (List.replicate 1024 0) := by
  refine ⟨rfl, rfl, ?_⟩
  simp [sendBasicRtspRequest, hov]

theorem c6_witness :
    (sendBasicRtspRequest (Session.new "a") "TEARDOWN" ⟨true, none⟩).result = SendResult.ioErr
    ∧ (sendBasicRtspRequest (Session.new "a") "TEARDOWN" ⟨false, goodNet.readResult⟩).result
      = SendResult.ioErr
    ∧ (sendBasicRtspRequest (Session.new "a") "TEARDOWN" ⟨true, some []⟩).result
      = SendResult.ok (List.replicate 1024 0) :=
  c6_amended_failure (Session.new "a") "TEARDOWN" goodNet (by decide)

/-- C9: whenever the write succeeds, the request written to the control
connection is exactly the method name, a space, the session's remote
address, then " RTSP/1.0", CRLF, "CSeq: " with the current sequence number,
CRLF, and a final empty line (CRLF). -/
theorem c9_request_format (sess : Session) (m : String) (net : NetStep)
    (hw : net.writeOk = true) :
    (sendBasicRtspRequest sess m net).written =
      some (m ++ " " ++ sess.serverAddr ++ " RTSP/1.0\r\nCSeq: "
        ++ toString sess.cseq ++ "\r\n\r\n") := by
  cases net with
  | mk w r =>
    simp only at hw
    subst hw
    cases r with
    | none => rfl
    | some data =>
      by_cases hov : sess.cseq + 1 < U32_MOD
      · simp [sendBasicRtspRequest, formatRequest, hov]
      · simp [sendBasicRtspRequest, formatRequest, hov]

theorem c9_witness :
    (sendBasicRtspRequest (Session.new "192.168.86.138:554") "OPTIONS" goodNet).written =
      some ("OPTIONS" ++ " " ++ (Session.new "192.168.86.138:554").serverAddr
        ++ " RTSP/1.0\r\nCSeq: " ++ toString (Session.new "192.168.86.138:554").cseq
        ++ "\r\n\r\n") :=
  c9_request_format (Session.new "192.168.86.138:554") "OPTIONS" goodNet rfl

/-- C10: on a successful send the bytes handed to the lossy UTF-8 decoding
are the entire fixed 1024-byte buffer, not just the bytes actually read:
the read count is discarded, the result covers all 1024 positions, and
every position past the read bytes still holds the initial 0 (which decodes
to the NUL character). -/
theorem c10_decodes_whole_buffer (sess : Session) (m : String) (data : List Nat)
    (hov : sess.cseq + 1 < U32_MOD) :
    (sendBasicRtspRequest sess m ⟨true, some data⟩).result =
      SendResult.ok (data.take (min data.length 1024)
        ++ List.replicate (1024 - min data.length 1024) 0)
    ∧ (data.take (min data.length 1024)
        ++ List.replicate (1024 - min data.length 1024) 0).length = 1024
    ∧ (∀ i, min data.length 1024 ≤ i →
        (data.take (min data.length 1024)
          ++ List.replicate (1024 - min data.length 1024) 0).getD i 0 = 0) := by
  refine ⟨by simp [sendBasicRtspRequest, hov], ?_, ?_⟩
  · rw [List.length_append, List.length_take, List.length_replicate]
    omega
  · intro i hi
    rw [List.getD_eq_getElem?_getD,
      List.getElem?_append_right (by rw [List.length_take]; omega),
      List.getElem?_replicate]
    split
    · rfl
    · rfl

theorem c10_witness :
    (sendBasicRtspRequest (Session.new "a") "DESCRIBE" ⟨true, some dataW⟩).result =
      SendResult.ok (dataW.take (min dataW.length 1024)
        ++ List.replicate (1024 - min dataW.length 1024) 0)
    ∧ (dataW.take (min dataW.length 1024)
        ++ List.replicate (1024 - min dataW.length 1024) 0).length = 1024
    ∧ (∀ i, min dataW.length 1024 ≤ i →
        (dataW.take (min dataW.length 1024)
          ++ List.replicate (1024 - min dataW.length 1024) 0).getD i 0 = 0) :=
  c10_decodes_whole_buffer (Session.new "a") "DESCRIBE" dataW (by decide)
